import Mathlib

/-!
# SS E-SPORTS scrims bot — registration lifecycle, shallow embedding

This file embeds the registration-lifecycle core of `src/bot.py` (a
single-file Discord tournament-registration bot) and proves or refutes the
specification claims about it.

Modelling conventions:
* Python dicts (`REG_BY_ID`, `REG_BY_MESSAGE`, `PENDING_EXPIRE_TASKS`,
  `PENDING_PAYMENT_TASKS`, `BLACKLIST`, `PAYMENT_VERIFICATION_REQUESTS`)
  become association lists with insert-replace semantics; the whole mutable
  module state becomes an explicit `BotState` record threaded through the
  operations.
* `datetime` instants become `Nat` seconds; `timedelta(minutes=10)` is `600`.
* The only status strings the source ever stores are `"pending"`,
  `"payment_pending"` and `"confirmed"` (terminal exits delete the record
  instead of storing a status), so `status` is a three-constructor inductive.
* Discord I/O (embeds, reactions, board edits) carries no store state; calls
  whose *success or failure* steers the store (DM deliveries) become `Bool`
  parameters, and externally visible side effects the claims mention
  (grant sequences, audit records, leader notifications, payment
  instructions) are recorded in event lists on the state.
-/

/-- Status values actually stored in `Registration.status` by `bot.py`. -/
inductive Status where
  | pending
  | payment_pending
  | confirmed
deriving DecidableEq, Repr

/-- Embeds `@dataclass class Registration` from `bot.py`. -/
structure Registration where
  reg_id : Nat
  lobby_key : String
  message_id : Nat
  team_name : String
  leader_id : Nat
  player_ids : List Nat
  match_type : Option String := none
  entry_fee : Option Nat := none
  status : Status := .pending
  created_at : Option Nat := none
deriving DecidableEq, Repr

/-- Embeds `MatchTypeConfig` (key, display name elided, fee options). -/
structure MatchTypeConfig where
  key : String
  fee_options : List Nat
deriving DecidableEq, Repr

/-- The `MATCH_TYPES` table of `bot.py`. -/
def MATCH_TYPES : List (String × MatchTypeConfig) :=
  [ ("special", ⟨"special", [55]⟩),
    ("mini", ⟨"mini", [25, 30]⟩),
    ("mega", ⟨"mega", [35, 45]⟩) ]

/-- The keys of the `LOBBIES` table of `bot.py` (channel ids and labels are
presentation data the core never branches on). -/
def LOBBY_KEYS : List String := ["12pm", "03pm", "06pm", "09pm", "12am"]

/-- Configuration read from the environment at startup:
`PAYMENT_TIMEOUT_MINUTES` (default 10) and `AUTO_BLACKLIST_ON_TIMEOUT`
(default true). -/
structure Config where
  paymentTimeoutMinutes : Nat := 10
  autoBlacklistOnTimeout : Bool := true
deriving DecidableEq, Repr

/-- The mutable module-level state of `bot.py` that the lifecycle core reads
and writes, plus event logs for the externally visible side effects the
claims talk about. -/
structure BotState where
  /-- `REG_COUNTER` -/
  counter : Nat := 0
  /-- `REG_BY_ID` values, in dict insertion order. -/
  regs : List Registration := []
  /-- `REG_BY_MESSAGE` as (message_id, reg_id) pairs. -/
  reg_by_message : List (Nat × Nat) := []
  /-- keys of `PENDING_EXPIRE_TASKS`. -/
  expire_tasks : List Nat := []
  /-- `PENDING_PAYMENT_TASKS` as (reg_id, timeout minutes the task was armed
  with). -/
  payment_tasks : List (Nat × Nat) := []
  /-- `BLACKLIST` as (leader_id, reason). -/
  blacklist : List (Nat × String) := []
  /-- `PAYMENT_VERIFICATION_REQUESTS` as (verification message_id, reg_id). -/
  ver_requests : List (Nat × Nat) := []
  /-- audit-log records emitted (`audit_log` titles, emoji prefixes elided). -/
  audits : List String := []
  /-- leader ids sent a cancellation/decision DM notification. -/
  notifications : List Nat := []
  /-- one entry per executed confirmation grant sequence (role
  creation/assignment, IDP channel opening, squad card), keyed by reg_id. -/
  grants : List Nat := []
  /-- reg_ids that were sent payment instructions (QR + rules DM). -/
  payment_instructions : List Nat := []
deriving DecidableEq, Repr

/-- Embeds `REG_BY_ID.get(reg_id)`. -/
def getReg (s : BotState) (id : Nat) : Option Registration :=
  s.regs.find? (fun r => r.reg_id == id)

/-- Dict insert-replace for `REG_BY_ID[reg.reg_id] = reg`. -/
def insertReg (regs : List Registration) (reg : Registration) : List Registration :=
  (regs.filter (fun r => r.reg_id != reg.reg_id)) ++ [reg]

/-- Mutation of the object held in `REG_BY_ID` (`reg.status = ...` etc.). -/
def updateReg (regs : List Registration) (id : Nat) (f : Registration → Registration) :
    List Registration :=
  regs.map (fun r => if r.reg_id == id then f r else r)

/-- Embeds `REG_BY_ID.pop(id, None)` (also drops the `REG_BY_MESSAGE` alias when the
caller pops both, see each operation). -/
def removeReg (regs : List Registration) (id : Nat) : List Registration :=
  regs.filter (fun r => r.reg_id != id)

/-- generic dict insert-replace on an association list. -/
def dictInsert {κ α : Type} [BEq κ] (l : List (κ × α)) (k : κ) (v : α) : List (κ × α) :=
  (l.filter (fun p => p.1 != k)) ++ [(k, v)]

/-- generic dict pop on an association list. -/
def dictPop {κ α : Type} [BEq κ] (l : List (κ × α)) (k : κ) : List (κ × α) :=
  l.filter (fun p => p.1 != k)

/-- generic dict lookup on an association list. -/
def dictGet {κ α : Type} [BEq κ] (l : List (κ × α)) (k : κ) : Option α :=
  (l.find? (fun p => p.1 == k)).map (·.2)

/-- Embeds `registrations_for(lobby_key, match_type, statuses)` with both filters
optional, exactly as in `bot.py`. -/
def registrations_for (regs : List Registration) (lobby_key : String)
    (match_type : Option String) (statuses : Option (List Status)) :
    List Registration :=
  regs.filter (fun reg =>
    reg.lobby_key == lobby_key &&
    (match match_type with
     | none => true
     | some mt => reg.match_type == some mt) &&
    (match statuses with
     | none => true
     | some sts => sts.contains reg.status))

/-- Embeds `total_confirmed_slots(lobby_key)`. -/
def total_confirmed_slots (regs : List Registration) (lobby_key : String) : Nat :=
  (registrations_for regs lobby_key none (some [.confirmed])).length

/-- Embeds `reserved_slots_count(lobby_key)`. -/
def reserved_slots_count (regs : List Registration) (lobby_key : String) : Nat :=
  (registrations_for regs lobby_key none (some [.payment_pending, .confirmed])).length

/-- Embeds `confirmed_slots_for_type(lobby_key, match_type)`. -/
def confirmed_slots_for_type (regs : List Registration) (lobby_key : String)
    (match_type : String) : Nat :=
  (registrations_for regs lobby_key (some match_type) (some [.confirmed])).length

/-- Embeds `str.lower()` of the source as a kernel-reducible character map (equal
to `String.toLower`, whose `String.map` does not reduce definitionally; team
names here are ASCII, where Python's `str.lower` agrees with
`Char.toLower`). -/
def strLower (s : String) : String :=
  ⟨s.data.map Char.toLower⟩

/-- Per-registration body of the `is_duplicate_registration` scan: true when
this `reg` makes the candidate a duplicate, `none`-like false when the loop
just continues past it. -/
def dupHit (now : Nat) (lobby_key team_name : String) (player_ids : List Nat)
    (reg : Registration) : Bool :=
  if reg.lobby_key != lobby_key then false
  else if reg.status == .pending &&
      (match reg.created_at with
       | some c => decide (now - c > 600)
       | none => false) then false
  else if strLower reg.team_name == strLower team_name &&
      (reg.status == .payment_pending || reg.status == .confirmed) then true
  else
    player_ids.any (fun pid =>
      reg.player_ids.contains pid &&
      (reg.status == .payment_pending || reg.status == .confirmed))

/-- Embeds `is_duplicate_registration(lobby_key, team_name, player_ids)`; `now` is
the `datetime.now(tz=IST)` the Python function samples. -/
def is_duplicate_registration (now : Nat) (lobby_key team_name : String)
    (player_ids : List Nat) (regs : List Registration) : Bool :=
  regs.any (dupHit now lobby_key team_name player_ids)

/-!
## Operations

Each operation is the store-mutating content of one event handler of
`bot.py`, with Discord sends abstracted as noted in the module docstring.
-/

/-- Embeds `send_payment_qr_and_start_timeout(user, reg, guild)`: try to DM the QR
and payment rules (`dmOk` models whether both sends succeed); on failure roll
the registration back (pop both indices, pop and cancel the expiry task); on
success record the instructions, arm the auto-cancel payment task with
`PAYMENT_TIMEOUT_MINUTES`, and audit "Payment Pending". -/
def send_payment_qr_and_start_timeout (cfg : Config) (s : BotState) (regId : Nat)
    (messageId : Nat) (dmOk : Bool) : BotState :=
  if dmOk then
    { s with
      payment_instructions := s.payment_instructions ++ [regId]
      payment_tasks := dictInsert s.payment_tasks regId cfg.paymentTimeoutMinutes
      audits := s.audits ++ ["Payment Pending"] }
  else
    { s with
      regs := removeReg s.regs regId
      reg_by_message := dictPop s.reg_by_message messageId
      expire_tasks := s.expire_tasks.filter (fun k => k != regId) }

/-- Embeds `MatchTypeView.handle_choice(interaction, mt_key)`. The view stores the
`reg_id` and `lobby_key` it was created with; `dmOk` models the payment-DM
delivery in the single-fee branch. Note: the source checks
`reserved_slots_count(...) >= 36` here, before committing the single-fee
reservation. -/
def handle_choice (cfg : Config) (s : BotState) (regId : Nat) (lobbyKey mtKey : String)
    (dmOk : Bool) : BotState :=
  match getReg s regId with
  | none => s
  | some reg =>
    if !(reg.status == .pending || reg.status == .payment_pending) then s
    else if reserved_slots_count s.regs lobbyKey ≥ 36 then s
    else
      let s1 := { s with regs := updateReg s.regs regId (fun r => { r with match_type := some mtKey }) }
      match dictGet MATCH_TYPES mtKey with
      | none => s1
      | some mt =>
        if mt.fee_options.length == 1 then
          let s2 := { s1 with regs := updateReg s1.regs regId (fun r =>
            { r with entry_fee := mt.fee_options.head?, status := .payment_pending }) }
          send_payment_qr_and_start_timeout cfg s2 regId reg.message_id dmOk
        else
          s1

/-- Embeds `FeeButton.callback(interaction)`: the fee sub-choice commit. The source
re-checks existence and non-terminal status but performs NO capacity check
on this path before setting `status = "payment_pending"`. -/
def fee_button_callback (cfg : Config) (s : BotState) (regId fee : Nat)
    (dmOk : Bool) : BotState :=
  match getReg s regId with
  | none => s
  | some reg =>
    if !(reg.status == .pending || reg.status == .payment_pending) then s
    else
      let s1 := { s with regs := updateReg s.regs regId (fun r =>
        { r with entry_fee := some fee, status := .payment_pending }) }
      send_payment_qr_and_start_timeout cfg s1 regId reg.message_id dmOk

/-- Body of `expire_pending(reg_id)` after its 5-minute sleep: re-fetch by
id; only when the registration still exists and is still `pending`, remove it
from both indices, pop the task entry, and audit. -/
def expire_pending_fire (s : BotState) (regId : Nat) : BotState :=
  match getReg s regId with
  | none => s
  | some reg =>
    if reg.status == .pending then
      { s with
        regs := removeReg s.regs regId
        reg_by_message := dictPop s.reg_by_message reg.message_id
        expire_tasks := s.expire_tasks.filter (fun k => k != regId)
        audits := s.audits ++ ["Registration Expired"] }
    else s

/-- Body of `auto_cancel_payment_timeout(reg_id, timeout_minutes)` after its
sleep: re-fetch by id; only when still `payment_pending`, remove the record,
audit, notify the leader, and — when `AUTO_BLACKLIST_ON_TIMEOUT` — blacklist
the leader with reason "Payment Timeout". -/
def auto_cancel_payment_timeout_fire (cfg : Config) (s : BotState) (regId : Nat) :
    BotState :=
  match getReg s regId with
  | none => s
  | some reg =>
    if reg.status == .payment_pending then
      let s1 := { s with
        regs := removeReg s.regs regId
        reg_by_message := dictPop s.reg_by_message reg.message_id
        payment_tasks := dictPop s.payment_tasks regId
        audits := s.audits ++ ["Payment Timeout - Registration Cancelled"]
        notifications := s.notifications ++ [reg.leader_id] }
      if cfg.autoBlacklistOnTimeout then
        { s1 with
          blacklist := dictInsert s1.blacklist reg.leader_id "Payment Timeout"
          audits := s1.audits ++ ["Auto Blacklist"] }
      else s1
    else s

/-- Embeds `confirm_registration(reg, guild, ...)`: pop and cancel the payment task,
set `status = "confirmed"`, then run the grant sequence (role, IDP channel,
squad card, boards) and audit "Payment Verified". The source performs no
already-confirmed short-circuit. The `LOBBIES[...]`/`MATCH_TYPES[...]`
subscripts raise `KeyError` when the keys are absent, aborting the sequence
AFTER the status commit; the `none` fallthroughs model that abort. -/
def confirm_registration (s : BotState) (regId : Nat) : BotState :=
  match getReg s regId with
  | none => s
  | some reg =>
    let s1 := { s with payment_tasks := dictPop s.payment_tasks regId }
    let s2 := { s1 with regs := updateReg s1.regs regId (fun r => { r with status := .confirmed }) }
    if !(LOBBY_KEYS.contains reg.lobby_key) then s2
    else
      match reg.match_type with
      | none => s2
      | some mtKey =>
        match dictGet MATCH_TYPES mtKey with
        | none => s2
        | some _ =>
          { s2 with
            grants := s2.grants ++ [regId]
            audits := s2.audits ++ ["Payment Verified"] }

/-- Embeds the `$markpaid <team_name>` staff command (`markpaid_cmd`): find the first registration
whose team name matches case-insensitively; reply-only when absent or
already `confirmed`; otherwise run `confirm_registration`. -/
def markpaid_cmd (s : BotState) (teamName : String) : BotState :=
  match s.regs.find? (fun r => strLower r.team_name == strLower teamName) with
  | none => s
  | some reg =>
    if reg.status == .confirmed then s
    else confirm_registration s reg.reg_id

/-- Embeds `_markpaid_by_reg_id(reg_id)` — the dashboard `/api/markpaid` worker:
re-fetch by id and, when present, run `confirm_registration` with no status
check at all. -/
def markpaid_by_reg_id (s : BotState) (regId : Nat) : BotState :=
  match getReg s regId with
  | none => s
  | some _ => confirm_registration s regId

/-- Embeds the approval branch of `on_raw_reaction_add`: resolve the verification message to a
registration and, when present, confirm it, notify the leader, and pop the
verification-request entry. -/
def staff_approve (s : BotState) (verMsgId : Nat) : BotState :=
  match dictGet s.ver_requests verMsgId with
  | none => s
  | some regId =>
    match getReg s regId with
    | none => s
    | some reg =>
      let s1 := confirm_registration s regId
      { s1 with
        notifications := s1.notifications ++ [reg.leader_id]
        ver_requests := dictPop s1.ver_requests verMsgId }

/-- Embeds the rejection branch of `on_raw_reaction_add`: pop and cancel the payment task, remove
the registration from both indices, audit "Payment Rejected", notify the
leader, and pop the verification-request entry. No blacklist mutation. -/
def staff_reject (s : BotState) (verMsgId : Nat) : BotState :=
  match dictGet s.ver_requests verMsgId with
  | none => s
  | some regId =>
    match getReg s regId with
    | none => s
    | some reg =>
      { s with
        payment_tasks := dictPop s.payment_tasks regId
        regs := removeReg s.regs regId
        reg_by_message := dictPop s.reg_by_message reg.message_id
        audits := s.audits ++ ["Payment Rejected"]
        notifications := s.notifications ++ [reg.leader_id]
        ver_requests := dictPop s.ver_requests verMsgId }

/-- Embeds the `$cancel_slot <team_name>` staff command: find by team name, pop and cancel the payment
task, remove from both indices, audit. -/
def cancel_slot (s : BotState) (teamName : String) : BotState :=
  match s.regs.find? (fun r => strLower r.team_name == strLower teamName) with
  | none => s
  | some reg =>
    { s with
      payment_tasks := dictPop s.payment_tasks reg.reg_id
      regs := removeReg s.regs reg.reg_id
      reg_by_message := dictPop s.reg_by_message reg.message_id
      audits := s.audits ++ ["Slot Cancelled"] }

/-- The registration-creation path of `on_message` for a message in a lobby
channel: blacklist gate, exactly-4-mentions gate, duplicate gate, then
create the record under `next_reg_id()`, index it, arm the expiry task, and
start the DM flow. `leaderInGuild` models `guild.get_member(leader_id)`
succeeding; `dmOk` models the initial private prompt delivery
(`start_dm_flow` returning True). On a missing member the source pops both
indices and cancels the task (leaving the task-dict key); on a failed DM it
pops both indices and pops + cancels the task. -/
def register_submission (s : BotState) (now : Nat) (lobbyKey : String)
    (messageId leaderId : Nat) (displayName : String) (playerIds : List Nat)
    (leaderInGuild dmOk : Bool) : BotState :=
  if s.blacklist.any (fun p => p.1 == leaderId) then s
  else if playerIds.length != 4 then s
  else if is_duplicate_registration now lobbyKey ("Team-" ++ displayName) playerIds s.regs then s
  else
    let newId := s.counter + 1
    let reg : Registration :=
      { reg_id := newId, lobby_key := lobbyKey, message_id := messageId,
        team_name := "Team-" ++ displayName, leader_id := leaderId, player_ids := playerIds,
        status := .pending, created_at := some now }
    let s1 := { s with
      counter := newId
      regs := insertReg s.regs reg
      reg_by_message := dictInsert s.reg_by_message messageId newId
      expire_tasks := (s.expire_tasks.filter (fun k => k != newId)) ++ [newId] }
    if !leaderInGuild then
      { s1 with
        regs := removeReg s1.regs newId
        reg_by_message := dictPop s1.reg_by_message messageId }
    else if !dmOk then
      { s1 with
        regs := removeReg s1.regs newId
        reg_by_message := dictPop s1.reg_by_message messageId
        expire_tasks := s1.expire_tasks.filter (fun k => k != newId) }
    else
      { s1 with audits := s1.audits ++ ["DM Sent Automatically", "Registration Submitted"] }

/-!
## The lifecycle step relation

`Op` enumerates every store-mutating event handler modelled above; `step`
dispatches one event. This is the state machine the lifecycle claims range
over.
-/

/-- One external trigger entering the lifecycle core. -/
inductive Op where
  | register (now : Nat) (lobbyKey : String) (messageId leaderId : Nat)
      (displayName : String) (playerIds : List Nat) (leaderInGuild dmOk : Bool)
  | matchTypeChoice (regId : Nat) (lobbyKey mtKey : String) (dmOk : Bool)
  | feeChoice (regId fee : Nat) (dmOk : Bool)
  | expireFire (regId : Nat)
  | paymentTimeoutFire (regId : Nat)
  | approve (verMsgId : Nat)
  | reject (verMsgId : Nat)
  | markpaid (teamName : String)
  | markpaidDashboard (regId : Nat)
  | cancelSlot (teamName : String)

/-- Dispatch one event to its handler. -/
def step (cfg : Config) (s : BotState) : Op → BotState
  | .register now lobbyKey messageId leaderId displayName playerIds inGuild dmOk =>
      register_submission s now lobbyKey messageId leaderId displayName playerIds inGuild dmOk
  | .matchTypeChoice regId lobbyKey mtKey dmOk => handle_choice cfg s regId lobbyKey mtKey dmOk
  | .feeChoice regId fee dmOk => fee_button_callback cfg s regId fee dmOk
  | .expireFire regId => expire_pending_fire s regId
  | .paymentTimeoutFire regId => auto_cancel_payment_timeout_fire cfg s regId
  | .approve verMsgId => staff_approve s verMsgId
  | .reject verMsgId => staff_reject s verMsgId
  | .markpaid teamName => markpaid_cmd s teamName
  | .markpaidDashboard regId => markpaid_by_reg_id s regId
  | .cancelSlot teamName => cancel_slot s teamName

/-- Store well-formedness: registration ids are pairwise distinct and no id
exceeds `REG_COUNTER` (ids are handed out by `next_reg_id`, so a live id can
never collide with the next fresh one). -/
def WF (s : BotState) : Prop :=
  s.regs.Pairwise (fun a b => a.reg_id ≠ b.reg_id) ∧
  ∀ r ∈ s.regs, r.reg_id ≤ s.counter

/-- Forward order of the lifecycle graph `pending → payment_pending →
confirmed`. -/
def statusRank : Status → Nat
  | .pending => 0
  | .payment_pending => 1
  | .confirmed => 2

/-- One-step registration evolution: every record in the new store either
descends from a record of the old store with the same id and a
status at least as far along the lifecycle, or is a freshly created record
whose id exceeds the old counter. -/
def RegsMono (c : Nat) (old new : List Registration) : Prop :=
  ∀ r' ∈ new,
    (∃ r ∈ old, r.reg_id = r'.reg_id ∧ statusRank r.status ≤ statusRank r'.status) ∨
    c < r'.reg_id

/-!
## Spec-comparison definition and concrete states

`is_duplicate_registration_noGrace` restates the duplicate rule exactly as
`is_duplicate_registration` does but WITHOUT the 10-minute grace-window
exclusion of stale `pending` rows; it exists only to be compared with the
source-derived scan. The concrete `BotState`s below are inputs for
counterexamples and witnesses.
-/

/-- Per-registration duplicate test without the grace-window skip. -/
def dupHitNoGrace (lobby team : String) (players : List Nat)
    (reg : Registration) : Bool :=
  if reg.lobby_key != lobby then false
  else if strLower reg.team_name == strLower team &&
      (reg.status == .payment_pending || reg.status == .confirmed) then true
  else
    players.any (fun pid =>
      reg.player_ids.contains pid &&
      (reg.status == .payment_pending || reg.status == .confirmed))

/-- The duplicate scan without the grace-window exclusion (comparison
definition for the grace-window claim). -/
def is_duplicate_registration_noGrace (lobby team : String) (players : List Nat)
    (regs : List Registration) : Bool :=
  regs.any (dupHitNoGrace lobby team players)

/-- A reserved (payment_pending) registration of the noon lobby, one of 36. -/
def ppRegAt (i : Nat) : Registration :=
  { reg_id := i, lobby_key := "12pm", message_id := 1000 + i,
    team_name := "Team-p" ++ toString i, leader_id := 2000 + i,
    player_ids := [4 * i, 4 * i + 1, 4 * i + 2, 4 * i + 3],
    match_type := some "special", entry_fee := some 55,
    status := .payment_pending, created_at := some 0 }

/-- A pending registration (id 37) stuck at the fee sub-choice of the "mini"
match type. -/
def feeChoiceReg : Registration :=
  { reg_id := 37, lobby_key := "12pm", message_id := 1037, team_name := "Team-q",
    leader_id := 2037, player_ids := [900, 901, 902, 903],
    match_type := some "mini", status := .pending, created_at := some 0 }

/-- Noon lobby at full reserved capacity (36) plus one pending fee
sub-choice flow. -/
def fullLobbyState : BotState :=
  { counter := 37,
    regs := ((List.range 36).map (fun i => ppRegAt (i + 1))) ++ [feeChoiceReg],
    expire_tasks := [37] }

/-- A payment_pending registration of the noon lobby. -/
def payPendingReg : Registration :=
  { reg_id := 1, lobby_key := "12pm", message_id := 10,
    team_name := "Team-a", leader_id := 99, player_ids := [5, 6, 7, 8],
    match_type := some "special", entry_fee := some 55,
    status := .payment_pending, created_at := some 0 }

/-- A store holding only `payPendingReg`, its payment task armed and its
proof forwarded to the staff channel as verification message 500. -/
def payPendingState : BotState :=
  { counter := 1,
    regs := [payPendingReg],
    payment_tasks := [(1, 10)],
    ver_requests := [(500, 1)] }

/-- One pending registration that has already picked the "mini" match type
(fee sub-choice open). -/
def pendingChosenState : BotState :=
  { counter := 1,
    regs := [{ reg_id := 1, lobby_key := "12pm", message_id := 10,
               team_name := "Team-a", leader_id := 99, player_ids := [5, 6, 7, 8],
               match_type := some "mini", status := .pending, created_at := some 0 }],
    expire_tasks := [1] }

/-- A freshly created pending registration, no match type chosen yet. -/
def freshPendingReg : Registration :=
  { reg_id := 1, lobby_key := "12pm", message_id := 10,
    team_name := "Team-a", leader_id := 99, player_ids := [5, 6, 7, 8],
    status := .pending, created_at := some 0 }

/-- A store holding only `freshPendingReg`, its expiry task armed. -/
def freshPendingState : BotState :=
  { counter := 1, regs := [freshPendingReg], expire_tasks := [1] }

/-- A confirmed registration in the noon lobby holding player 5. -/
def confirmedReg : Registration :=
  { reg_id := 1, lobby_key := "12pm", message_id := 10,
    team_name := "Team-a", leader_id := 99, player_ids := [5, 6, 7, 8],
    match_type := some "special", entry_fee := some 55,
    status := .confirmed, created_at := some 0 }

/-- A store holding only `confirmedReg`. -/
def confirmedState : BotState :=
  { counter := 1, regs := [confirmedReg] }

/-- One stale pending registration, 20 minutes old at instant 1200, holding
player 5. -/
def stalePendingState : BotState :=
  { counter := 1,
    regs := [{ reg_id := 1, lobby_key := "12pm", message_id := 10,
               team_name := "Team-a", leader_id := 99, player_ids := [5, 6, 7, 8],
               status := .pending, created_at := some 0 }] }

/-!
## Helper lemmas
-/

/-- A single registration trips the duplicate scan exactly when it is in the
same lobby, holds a reserved/confirmed slot, and matches by team name or by a
shared player. -/
lemma dupHit_iff (now : Nat) (lobby team : String) (players : List Nat)
    (reg : Registration) :
    dupHit now lobby team players reg = true ↔
      (reg.lobby_key = lobby ∧
       (reg.status = .payment_pending ∨ reg.status = .confirmed) ∧
       (strLower reg.team_name = strLower team ∨ ∃ p ∈ players, p ∈ reg.player_ids)) := by
  unfold dupHit
  cases hst : reg.status <;>
    simp [List.any_eq_true, hst, List.elem_iff, and_assoc]

/-- The full duplicate scan, characterized. -/
lemma is_duplicate_iff (now : Nat) (lobby team : String) (players : List Nat)
    (regs : List Registration) :
    is_duplicate_registration now lobby team players regs = true ↔
      ∃ r ∈ regs, r.lobby_key = lobby ∧
        (r.status = .payment_pending ∨ r.status = .confirmed) ∧
        (strLower r.team_name = strLower team ∨ ∃ p ∈ players, p ∈ r.player_ids) := by
  unfold is_duplicate_registration
  rw [List.any_eq_true]
  constructor
  · rintro ⟨r, hr, hhit⟩
    exact ⟨r, hr, (dupHit_iff now lobby team players r).mp hhit⟩
  · rintro ⟨r, hr, hprop⟩
    exact ⟨r, hr, (dupHit_iff now lobby team players r).mpr hprop⟩

/-!
## Claims
-/

/-- C4: the duplicate check returns true exactly when some existing
registration in the same lobby has status payment_pending or confirmed and
either matches the candidate's team name case-insensitively or shares a
player id with it; and whenever it returns true the submission path leaves
the store untouched (no registration is created). In particular a confirmed
registration holding player P blocks any new submission containing P, while
a stale (over-10-minute-old) pending registration blocks nothing. -/
theorem C4_duplicate_rule (now : Nat) (lobby : String) (players : List Nat)
    (s : BotState) :
    (∀ team, is_duplicate_registration now lobby team players s.regs = true ↔
      ∃ r ∈ s.regs, r.lobby_key = lobby ∧
        (r.status = .payment_pending ∨ r.status = .confirmed) ∧
        (strLower r.team_name = strLower team ∨ ∃ p ∈ players, p ∈ r.player_ids)) ∧
    (∀ messageId leaderId displayName inGuild dmOk,
      is_duplicate_registration now lobby ("Team-" ++ displayName) players s.regs = true →
      register_submission s now lobby messageId leaderId displayName players inGuild dmOk = s) := by
  constructor
  · intro team
    exact is_duplicate_iff now lobby team players s.regs
  · intro messageId leaderId displayName inGuild dmOk hdup
    unfold register_submission
    split
    · rfl
    · split
      · rfl
      · simp [hdup]

/-- Witness for C4 at concrete inputs: a confirmed registration holding
player 5 makes a new four-player submission containing player 5 a duplicate,
and the submission operation returns the store unchanged. -/
theorem C4_duplicate_rule_witness :
    is_duplicate_registration 1200 "12pm" "Team-bob" [5, 20, 21, 22] confirmedState.regs = true ∧
    register_submission confirmedState 1200 "12pm" 11 100 "bob" [5, 20, 21, 22] true true = confirmedState := by
  refine ⟨by decide, ?_⟩
  exact (C4_duplicate_rule 1200 "12pm" [5, 20, 21, 22] confirmedState).2 11 100 "bob" true true (by decide)

/-- C10: the duplicate check agrees everywhere with the same scan stripped of
the 10-minute grace-window exclusion, and a store holding only pending
registrations can never make it report a duplicate — so the grace window
never changes the verdict. -/
theorem C10_grace_window_irrelevant (now : Nat) (lobby team : String)
    (players : List Nat) (regs : List Registration) :
    is_duplicate_registration now lobby team players regs =
      is_duplicate_registration_noGrace lobby team players regs ∧
    ((∀ r ∈ regs, r.status = .pending) →
      is_duplicate_registration now lobby team players regs = false) := by
  constructor
  · unfold is_duplicate_registration is_duplicate_registration_noGrace
    congr 1
    funext reg
    unfold dupHit dupHitNoGrace
    cases hst : reg.status
    · cases hc : reg.created_at <;>
        simp [show (Status.pending == Status.payment_pending) = false from rfl,
              show (Status.pending == Status.confirmed) = false from rfl,
              show (players.any fun _ => false) = false by simp]
    · simp
    · simp
  · intro hpend
    rw [← Bool.not_eq_true]
    intro htrue
    obtain ⟨r, hr, _, hst, _⟩ := (is_duplicate_iff now lobby team players regs).mp htrue
    have := hpend r hr
    rcases hst with h | h <;> simp [this] at h

/-- Witness for C10 at a concrete store: a 20-minute-old pending
registration holding player 5 neither trips the scan nor differs from the
no-grace scan on a submission containing player 5. -/
theorem C10_grace_window_irrelevant_witness :
    is_duplicate_registration 1200 "12pm" "Team-bob" [5, 20, 21, 22] stalePendingState.regs =
      is_duplicate_registration_noGrace "12pm" "Team-bob" [5, 20, 21, 22] stalePendingState.regs ∧
    is_duplicate_registration 1200 "12pm" "Team-bob" [5, 20, 21, 22] stalePendingState.regs = false := by
  refine ⟨(C10_grace_window_irrelevant 1200 "12pm" "Team-bob" [5, 20, 21, 22] stalePendingState.regs).1, ?_⟩
  exact (C10_grace_window_irrelevant 1200 "12pm" "Team-bob" [5, 20, 21, 22] stalePendingState.regs).2 (by decide)

/-- C5: a timer callback that fires stale — the registration gone, or its
status no longer the phase the timer was armed for (`pending` for the expiry
timer, `payment_pending` for the payment timer) — re-fetches by id and then
performs no mutation at all: the state is returned unchanged, and no error
surfaces. -/
theorem C5_stale_timer_fires_noop (s : BotState) (regId : Nat) :
    ((getReg s regId = none ∨
        ∃ r, getReg s regId = some r ∧ r.status ≠ .pending) →
      expire_pending_fire s regId = s) ∧
    ((getReg s regId = none ∨
        ∃ r, getReg s regId = some r ∧ r.status ≠ .payment_pending) →
      ∀ cfg, auto_cancel_payment_timeout_fire cfg s regId = s) := by
  constructor
  · rintro (hnone | ⟨r, hr, hst⟩)
    · unfold expire_pending_fire
      rw [hnone]
    · unfold expire_pending_fire
      rw [hr]
      simp [hst]
  · rintro (hnone | ⟨r, hr, hst⟩) cfg
    · unfold auto_cancel_payment_timeout_fire
      rw [hnone]
    · unfold auto_cancel_payment_timeout_fire
      rw [hr]
      simp [hst]

/-- Witness for C5 at a concrete store: both timers firing against a
registration that is already confirmed leave the state untouched. -/
theorem C5_stale_timer_fires_noop_witness :
    expire_pending_fire confirmedState 1 = confirmedState ∧
    auto_cancel_payment_timeout_fire {} confirmedState 1 = confirmedState := by
  constructor
  · exact (C5_stale_timer_fires_noop confirmedState 1).1
      (Or.inr ⟨confirmedReg, by decide, by decide⟩)
  · exact (C5_stale_timer_fires_noop confirmedState 1).2
      (Or.inr ⟨confirmedReg, by decide, by decide⟩) {}

/-- C6: selecting a match type while the lobby's reserved count is already at
or above the 36-slot ceiling is rejected without any effect: the whole store
state — the registration (still `pending`, `match_type` and `entry_fee`
untouched) and both timer tables — is returned exactly as it was, so the
leader may retry. -/
theorem C6_capacity_reject_nondestructive (cfg : Config) (s : BotState)
    (regId : Nat) (lobbyKey mtKey : String) (dmOk : Bool)
    (hfull : reserved_slots_count s.regs lobbyKey ≥ 36) :
    handle_choice cfg s regId lobbyKey mtKey dmOk = s := by
  unfold handle_choice
  cases hget : getReg s regId with
  | none => rfl
  | some reg =>
    simp only
    split
    · rfl
    · rfl

/-- Witness for C6: with the noon lobby at its full 36 reserved slots, the
pending fee sub-choice registration's match-type selection is a no-op. -/
theorem C6_capacity_reject_nondestructive_witness :
    reserved_slots_count fullLobbyState.regs "12pm" ≥ 36 ∧
    handle_choice {} fullLobbyState 37 "12pm" "special" true = fullLobbyState := by
  refine ⟨by decide, ?_⟩
  exact C6_capacity_reject_nondestructive {} fullLobbyState 37 "12pm" "special" true (by decide)

/-- C1 fails on the code: with the noon lobby's reserved count already at the
ceiling of 36, the fee sub-choice path (`FeeButton.callback`) still commits
`payment_pending` — it performs no Capacity Allocator check — so the
committed reserved count reaches 37 > 36. This theorem evaluates the code at
that failing input. -/
theorem C1_fee_subchoice_skips_capacity_guard :
    reserved_slots_count fullLobbyState.regs "12pm" = 36 ∧
    (getReg fullLobbyState 37).map (·.status) = some .pending ∧
    reserved_slots_count (fee_button_callback {} fullLobbyState 37 25 true).regs "12pm" = 37 ∧
    (getReg (fee_button_callback {} fullLobbyState 37 25 true) 37).map (·.status) =
      some .payment_pending := by
  refine ⟨by decide, by decide, by decide, by decide⟩

/-- C2 fails on the code: `confirm_registration` has no already-confirmed
short-circuit and the dashboard entry point `_markpaid_by_reg_id` performs
no status check, so invoking the dashboard markpaid twice on the same
registration runs the grant sequence twice and posts the "Payment Verified"
audit record twice. This theorem evaluates the code at that failing input. -/
theorem C2_dashboard_confirm_not_idempotent :
    (getReg (markpaid_by_reg_id payPendingState 1) 1).map (·.status) = some .confirmed ∧
    (markpaid_by_reg_id (markpaid_by_reg_id payPendingState 1) 1).grants = [1, 1] ∧
    (markpaid_by_reg_id (markpaid_by_reg_id payPendingState 1) 1).audits =
      ["Payment Verified", "Payment Verified"] := by
  refine ⟨by decide, by decide, by decide⟩

/-- Looking up after an in-place field update: the found record is the
original one with the update applied when the ids match. `f` must preserve
`reg_id` (every source mutation does). -/
lemma find?_updateReg (regs : List Registration) (id id' : Nat)
    (f : Registration → Registration) (hf : ∀ r, (f r).reg_id = r.reg_id) :
    (updateReg regs id f).find? (fun r => r.reg_id == id') =
      (regs.find? (fun r => r.reg_id == id')).map
        (fun r => if r.reg_id == id then f r else r) := by
  unfold updateReg
  rw [List.find?_map]
  have hfg : ((fun r => r.reg_id == id') ∘ fun r => if r.reg_id == id then f r else r) =
      (fun r : Registration => r.reg_id == id') := by
    funext r
    simp only [Function.comp_apply]
    split <;> simp_all [hf]
  rw [hfg]

/-- Looking up after a removal: gone when the removed id is looked up,
unchanged otherwise. -/
lemma find?_removeReg (regs : List Registration) (id id' : Nat) :
    (removeReg regs id).find? (fun r => r.reg_id == id') =
      if id' = id then none else regs.find? (fun r => r.reg_id == id') := by
  unfold removeReg
  rw [List.find?_filter]
  split
  · rename_i heq
    subst heq
    rw [List.find?_eq_none]
    intro x hx
    simp
  · rename_i hne
    have hfg : (fun a : Registration => decide ((a.reg_id != id) = true ∧ (a.reg_id == id') = true)) =
        (fun a : Registration => a.reg_id == id') := by
      funext a
      by_cases ha : a.reg_id = id'
      · simp [ha, hne]
      · simp [ha]
    rw [hfg]

/-- Fresh insert wins the lookup: `d[k] = v` then `d.get(k)`. -/
lemma dictGet_dictInsert_self {κ α : Type} [BEq κ] [LawfulBEq κ]
    (l : List (κ × α)) (k : κ) (v : α) :
    dictGet (dictInsert l k v) k = some v := by
  unfold dictGet dictInsert
  rw [List.find?_append]
  have h1 : (l.filter (fun p => p.1 != k)).find? (fun p => p.1 == k) = none := by
    rw [List.find?_eq_none]
    intro x hx
    have hx2 := (List.mem_filter.mp hx).2
    simp_all
  rw [h1]
  simp

/-- What the single-fixed-fee match-type selection actually does when every
guard passes and the payment DM is delivered: set `match_type`, set
`entry_fee` and `status := payment_pending`, record the payment
instructions, arm the payment task with the configured minutes, and audit —
while `expire_tasks` (and everything else) is left alone. -/
lemma handle_choice_single_fee_eq (cfg : Config) (s : BotState) (regId : Nat)
    (lobbyKey mtKey : String) (mt : MatchTypeConfig) (r : Registration)
    (hget : getReg s regId = some r) (hst : r.status = .pending)
    (hcap : reserved_slots_count s.regs lobbyKey < 36)
    (hmt : dictGet MATCH_TYPES mtKey = some mt)
    (hsingle : mt.fee_options.length = 1) :
    handle_choice cfg s regId lobbyKey mtKey true =
      { s with
        regs := updateReg
          (updateReg s.regs regId (fun x => { x with match_type := some mtKey }))
          regId (fun x => { x with entry_fee := mt.fee_options.head?, status := .payment_pending }),
        payment_instructions := s.payment_instructions ++ [regId],
        payment_tasks := dictInsert s.payment_tasks regId cfg.paymentTimeoutMinutes,
        audits := s.audits ++ ["Payment Pending"] } := by
  unfold handle_choice
  rw [hget]
  simp only [hst]
  rw [if_neg (by simp)]
  rw [if_neg (Nat.not_le.mpr hcap)]
  simp only [hmt]
  rw [if_pos (by simp [hsingle])]
  unfold send_payment_qr_and_start_timeout
  rw [if_pos rfl]

/-- C7 as stated fails on the code: the single-fee `pending →
payment_pending` transition never cancels or pops the expiry timer — after
the commit the registration's expiry task is still armed (the payment task
is armed and the instructions are sent, as claimed). Concrete evaluation at
a one-registration store. -/
theorem C7_expiry_timer_left_armed :
    (getReg (handle_choice {} freshPendingState 1 "12pm" "special" true) 1).map (·.status) =
      some .payment_pending ∧
    dictGet (handle_choice {} freshPendingState 1 "12pm" "special" true).payment_tasks 1 =
      some 10 ∧
    (handle_choice {} freshPendingState 1 "12pm" "special" true).payment_instructions = [1] ∧
    (handle_choice {} freshPendingState 1 "12pm" "special" true).expire_tasks = [1] := by
  refine ⟨by decide, by decide, by decide, by decide⟩

/-- C7 amended: on the single-fixed-fee selection that passes the Capacity
Allocator and whose payment DM is delivered, the status commits to
`payment_pending`, a payment timer of the configured number of minutes
(default 10) is armed for the registration, and payment instructions are
sent — but the expiry timer is NOT disarmed: the expiry-task table is
exactly what it was before the transition. -/
theorem C7_single_fee_transition_effects (cfg : Config) (s : BotState)
    (regId : Nat) (lobbyKey mtKey : String) (mt : MatchTypeConfig)
    (r : Registration)
    (hget : getReg s regId = some r) (hst : r.status = .pending)
    (hcap : reserved_slots_count s.regs lobbyKey < 36)
    (hmt : dictGet MATCH_TYPES mtKey = some mt)
    (hsingle : mt.fee_options.length = 1) :
    (getReg (handle_choice cfg s regId lobbyKey mtKey true) regId).map (·.status) =
      some .payment_pending ∧
    dictGet (handle_choice cfg s regId lobbyKey mtKey true).payment_tasks regId =
      some cfg.paymentTimeoutMinutes ∧
    (handle_choice cfg s regId lobbyKey mtKey true).payment_instructions =
      s.payment_instructions ++ [regId] ∧
    (handle_choice cfg s regId lobbyKey mtKey true).expire_tasks = s.expire_tasks := by
  rw [handle_choice_single_fee_eq cfg s regId lobbyKey mtKey mt r hget hst hcap hmt hsingle]
  refine ⟨?_, dictGet_dictInsert_self _ _ _, rfl, rfl⟩
  have hget' : s.regs.find? (fun x => x.reg_id == regId) = some r := hget
  have hrid : (r.reg_id == regId) = true :=
    @List.find?_some Registration (fun x => x.reg_id == regId) r s.regs hget'
  unfold getReg
  simp only
  rw [find?_updateReg _ regId regId
        (fun x => { x with entry_fee := mt.fee_options.head?, status := .payment_pending })
        (fun _ => rfl),
      find?_updateReg _ regId regId
        (fun x => { x with match_type := some mtKey })
        (fun _ => rfl)]
  rw [hget']
  have hre : r.reg_id = regId := by simpa using hrid
  simp [hre]

/-- Witness for C7 (amended) at a concrete one-registration store with the
default configuration. -/
theorem C7_single_fee_transition_effects_witness :
    (getReg (handle_choice {} freshPendingState 1 "12pm" "special" true) 1).map (·.status) =
      some .payment_pending ∧
    (handle_choice {} freshPendingState 1 "12pm" "special" true).expire_tasks =
      freshPendingState.expire_tasks :=
  have h := C7_single_fee_transition_effects {} freshPendingState 1 "12pm" "special"
    ⟨"special", [55]⟩ freshPendingReg (by decide) (by decide) (by decide) (by decide)
    (by decide)
  ⟨h.1, h.2.2.2⟩

/-- Inserting then filtering with the same key predicate cancels: the
append-then-pop pattern of a dict insert followed by a pop of that key. -/
lemma filter_insert_cancel {α : Type} (l : List α) (p : α → Bool) (a : α)
    (ha : p a = false) :
    ((l.filter p) ++ [a]).filter p = l.filter p := by
  rw [List.filter_append]
  have h1 : (l.filter p).filter p = l.filter p := by
    rw [List.filter_filter]
    have : (fun x => p x && p x) = p := by
      funext x
      exact Bool.and_self (p x)
    rw [this]
  rw [h1]
  simp [ha]

/-- C8: when the initial private prompt cannot be delivered after a
registration was created, the creation is fully rolled back: the resulting
state is the original one except for the consumed counter increment — the
record is in neither index and its expiry task is gone. The freshness
hypotheses say live ids and armed task keys never exceed the counter and the
triggering message is new, which creation guarantees. -/
theorem C8_dm_failure_rolls_back (s : BotState) (now : Nat) (lobbyKey : String)
    (messageId leaderId : Nat) (displayName : String) (playerIds : List Nat)
    (hbl : s.blacklist.any (fun p => p.1 == leaderId) = false)
    (hlen : playerIds.length = 4)
    (hdup : is_duplicate_registration now lobbyKey ("Team-" ++ displayName) playerIds s.regs = false)
    (hfreshRegs : ∀ r ∈ s.regs, r.reg_id ≤ s.counter)
    (hfreshExp : ∀ k ∈ s.expire_tasks, k ≤ s.counter)
    (hfreshMsg : dictGet s.reg_by_message messageId = none) :
    register_submission s now lobbyKey messageId leaderId displayName playerIds true false =
      { s with counter := s.counter + 1 } := by
  unfold register_submission
  rw [if_neg (by simp [hbl])]
  rw [if_neg (by simp [hlen])]
  rw [if_neg (by simp [hdup])]
  simp only [Bool.not_true, Bool.not_false, if_false, if_true, Bool.false_eq_true,
    Bool.true_eq_false, ite_false, ite_true]
  unfold removeReg insertReg dictPop dictInsert
  rw [filter_insert_cancel _ _ _ (by simp),
      filter_insert_cancel _ _ _ (by simp),
      filter_insert_cancel _ _ _ (by simp)]
  rw [List.filter_eq_self.mpr (fun r hr => by
        simp only [bne_iff_ne, ne_eq]
        have := hfreshRegs r hr
        omega),
      List.filter_eq_self.mpr (fun p hp => by
        have hmem := List.find?_eq_none.mp (by
          have := hfreshMsg
          unfold dictGet at this
          exact Option.map_eq_none.mp this) p hp
        simp_all),
      List.filter_eq_self.mpr (fun k hk => by
        simp only [bne_iff_ne, ne_eq]
        have := hfreshExp k hk
        omega)]

/-- Witness for C8: a failed prompt delivery on an empty store leaves only
the incremented counter behind. -/
theorem C8_dm_failure_rolls_back_witness :
    register_submission {} 50 "12pm" 777 9001 "alice" [1, 2, 3, 4] true false =
      { ({} : BotState) with counter := 1 } :=
  C8_dm_failure_rolls_back {} 50 "12pm" 777 9001 "alice" [1, 2, 3, 4]
    (by decide) (by decide) (by decide)
    (fun r hr => by simp at hr) (fun k hk => by simp at hk) (by decide)

/-- C9: when the payment timer fires on a registration still in
`payment_pending` with auto-blacklist enabled, the registration is removed
from the store, the leader is notified, and a blacklist entry keyed by the
leader's id with reason "Payment Timeout" is created; staff rejection of the
payment proof also removes the registration and notifies the leader but
leaves the blacklist exactly unchanged. -/
theorem C9_timeout_blacklists_reject_does_not (cfg : Config) (s : BotState)
    (regId verMsgId : Nat) (r : Registration)
    (hget : getReg s regId = some r) (hst : r.status = .payment_pending)
    (hver : dictGet s.ver_requests verMsgId = some regId)
    (hbl : cfg.autoBlacklistOnTimeout = true) :
    (getReg (auto_cancel_payment_timeout_fire cfg s regId) regId = none ∧
     (auto_cancel_payment_timeout_fire cfg s regId).notifications =
       s.notifications ++ [r.leader_id] ∧
     dictGet (auto_cancel_payment_timeout_fire cfg s regId).blacklist r.leader_id =
       some "Payment Timeout") ∧
    (getReg (staff_reject s verMsgId) regId = none ∧
     (staff_reject s verMsgId).notifications = s.notifications ++ [r.leader_id] ∧
     (staff_reject s verMsgId).blacklist = s.blacklist) := by
  constructor
  · simp only [auto_cancel_payment_timeout_fire, hget, hst, beq_self_eq_true, if_true,
      reduceIte, hbl]
    refine ⟨?_, trivial, dictGet_dictInsert_self _ _ _⟩
    unfold getReg
    simp only
    rw [find?_removeReg]
    simp
  · simp only [staff_reject, hver, hget]
    refine ⟨?_, trivial, trivial⟩
    unfold getReg
    simp only
    rw [find?_removeReg]
    simp

/-- Witness for C9 at a one-registration store with the default (blacklist
enabled) configuration. -/
theorem C9_timeout_blacklists_reject_does_not_witness :
    (getReg (auto_cancel_payment_timeout_fire {} payPendingState 1) 1 = none ∧
     dictGet (auto_cancel_payment_timeout_fire {} payPendingState 1).blacklist 99 =
       some "Payment Timeout") ∧
    (getReg (staff_reject payPendingState 500) 1 = none ∧
     (staff_reject payPendingState 500).blacklist = payPendingState.blacklist) := by
  have h := C9_timeout_blacklists_reject_does_not {} payPendingState 1 500
    { reg_id := 1, lobby_key := "12pm", message_id := 10,
      team_name := "Team-a", leader_id := 99, player_ids := [5, 6, 7, 8],
      match_type := some "special", entry_fee := some 55,
      status := .payment_pending, created_at := some 0 }
    (by decide) (by decide) (by decide) (by decide)
  exact ⟨⟨h.1.1, h.1.2.2⟩, ⟨h.2.1, h.2.2.2⟩⟩

/-- Pairwise-distinct ids identify records. -/
lemma unique_of_pairwise {l : List Registration}
    (hpw : l.Pairwise (fun a b => a.reg_id ≠ b.reg_id)) :
    ∀ a ∈ l, ∀ b ∈ l, a.reg_id = b.reg_id → a = b := by
  induction l with
  | nil => simp
  | cons x xs ih =>
    rcases List.pairwise_cons.mp hpw with ⟨hx, hxs⟩
    intro a ha b hb hab
    rcases List.mem_cons.mp ha with rfl | ha'
    · rcases List.mem_cons.mp hb with rfl | hb'
      · rfl
      · exact absurd hab (hx b hb')
    · rcases List.mem_cons.mp hb with rfl | hb'
      · exact absurd hab.symm (hx a ha')
      · exact ih hxs a ha' b hb' hab

lemma statusRank_le_two (st : Status) : statusRank st ≤ 2 := by
  cases st <;> simp [statusRank]

lemma regsMono_refl (c : Nat) (l : List Registration) : RegsMono c l l :=
  fun r' h => Or.inl ⟨r', h, rfl, le_refl _⟩

lemma regsMono_filter (c : Nat) (l : List Registration) (p : Registration → Bool) :
    RegsMono c l (l.filter p) :=
  fun r' h => Or.inl ⟨r', (List.mem_filter.mp h).1, rfl, le_refl _⟩

lemma regsMono_trans {c : Nat} {l m n : List Registration}
    (h1 : RegsMono c l m) (h2 : RegsMono c m n) : RegsMono c l n := by
  intro r' hr'
  rcases h2 r' hr' with ⟨rm, hrm, hid, hrank⟩ | hfresh
  · rcases h1 rm hrm with ⟨r, hr, hid0, hrank0⟩ | hfresh0
    · exact Or.inl ⟨r, hr, hid0.trans hid, hrank0.trans hrank⟩
    · exact Or.inr (hid ▸ hfresh0)
  · exact Or.inr hfresh

lemma regsMono_update (c : Nat) (l : List Registration) (id : Nat)
    (f : Registration → Registration) (hf : ∀ r, (f r).reg_id = r.reg_id)
    (hmono : ∀ r ∈ l, r.reg_id = id → statusRank r.status ≤ statusRank (f r).status) :
    RegsMono c l (updateReg l id f) := by
  intro r' hr'
  rcases List.mem_map.mp hr' with ⟨r, hr, heq⟩
  by_cases hid : (r.reg_id == id) = true
  · rw [if_pos hid] at heq
    refine Or.inl ⟨r, hr, ?_, ?_⟩
    · rw [← heq, hf]
    · rw [← heq]
      exact hmono r hr (by simpa using hid)
  · rw [if_neg hid] at heq
    exact Or.inl ⟨r, hr, by rw [heq], by rw [heq]⟩

lemma regsMono_append_fresh (c : Nat) (l l' : List Registration) (reg : Registration)
    (h : RegsMono c l l') (hfresh : c < reg.reg_id) :
    RegsMono c l (l' ++ [reg]) := by
  intro r' hr'
  rcases List.mem_append.mp hr' with h1 | h2
  · exact h r' h1
  · rw [List.mem_singleton.mp h2]
    exact Or.inr hfresh

lemma regsMono_confirm (c : Nat) (s : BotState) (id : Nat) :
    RegsMono c s.regs (confirm_registration s id).regs := by
  unfold confirm_registration
  cases hget : getReg s id with
  | none => exact regsMono_refl c s.regs
  | some reg =>
    simp only
    have hupd : RegsMono c s.regs
        (updateReg s.regs id (fun x => { x with status := Status.confirmed })) :=
      regsMono_update c s.regs id _ (fun _ => rfl)
        (fun r _ _ => statusRank_le_two r.status)
    split
    · exact hupd
    · split
      · exact hupd
      · split
        · exact hupd
        · exact hupd

lemma regsMono_send_payment (c : Nat) (cfg : Config) (s : BotState)
    (id msg : Nat) (dm : Bool) :
    RegsMono c s.regs (send_payment_qr_and_start_timeout cfg s id msg dm).regs := by
  unfold send_payment_qr_and_start_timeout
  split
  · exact regsMono_refl c s.regs
  · exact regsMono_filter c s.regs _

lemma regsMono_handle_choice (c : Nat) (cfg : Config) (s : BotState) (regId : Nat)
    (lobbyKey mtKey : String) (dmOk : Bool)
    (hpw : s.regs.Pairwise (fun a b => a.reg_id ≠ b.reg_id)) :
    RegsMono c s.regs (handle_choice cfg s regId lobbyKey mtKey dmOk).regs := by
  unfold handle_choice
  cases hget : getReg s regId with
  | none => exact regsMono_refl c s.regs
  | some reg =>
    have hregmem : reg ∈ s.regs := List.mem_of_find?_eq_some hget
    have hregid : (reg.reg_id == regId) = true :=
      @List.find?_some Registration (fun x => x.reg_id == regId) reg s.regs hget
    simp only
    split
    · exact regsMono_refl c s.regs
    · rename_i hstOK
      have hstat : reg.status = .pending ∨ reg.status = .payment_pending := by
        rcases hreg : reg.status <;> simp_all
      split
      · exact regsMono_refl c s.regs
      · have h1 : RegsMono c s.regs
            (updateReg s.regs regId (fun x => { x with match_type := some mtKey })) :=
          regsMono_update c s.regs regId _ (fun _ => rfl) (fun r _ _ => le_refl _)
        split
        · exact h1
        · rename_i mt hmt
          split
          · have h2 : RegsMono c
                (updateReg s.regs regId (fun x => { x with match_type := some mtKey }))
                (updateReg
                  (updateReg s.regs regId (fun x => { x with match_type := some mtKey }))
                  regId (fun x => { x with
                    entry_fee := mt.fee_options.head?, status := Status.payment_pending })) := by
              refine regsMono_update c _ regId _ (fun _ => rfl) ?_
              intro x hx hxid
              rcases List.mem_map.mp hx with ⟨y, hy, rfl⟩
              have hxidy : y.reg_id = regId := by
                by_cases hc : (y.reg_id == regId) = true
                · simpa using hc
                · rw [if_neg hc] at hxid
                  exact hxid
              have hregid2 : reg.reg_id = regId := by simpa using hregid
              have hyreg : y = reg :=
                unique_of_pairwise hpw y hy reg hregmem (by rw [hxidy, hregid2])
              have hxst : (if (y.reg_id == regId) = true then
                  ({ y with match_type := some mtKey } : Registration) else y).status
                  = reg.status := by
                subst hyreg
                split <;> rfl
              rw [hxst]
              rcases hstat with h | h <;> simp [h, statusRank]
            exact regsMono_trans (regsMono_trans h1 h2)
              (regsMono_send_payment c cfg _ regId reg.message_id dmOk)
          · exact h1

lemma regsMono_fee_button (c : Nat) (cfg : Config) (s : BotState)
    (regId fee : Nat) (dmOk : Bool)
    (hpw : s.regs.Pairwise (fun a b => a.reg_id ≠ b.reg_id)) :
    RegsMono c s.regs (fee_button_callback cfg s regId fee dmOk).regs := by
  unfold fee_button_callback
  cases hget : getReg s regId with
  | none => exact regsMono_refl c s.regs
  | some reg =>
    have hregmem : reg ∈ s.regs := List.mem_of_find?_eq_some hget
    have hregid : (reg.reg_id == regId) = true :=
      @List.find?_some Registration (fun x => x.reg_id == regId) reg s.regs hget
    have hregid2 : reg.reg_id = regId := by simpa using hregid
    simp only
    split
    · exact regsMono_refl c s.regs
    · rename_i hstOK
      have hstat : reg.status = .pending ∨ reg.status = .payment_pending := by
        rcases hreg : reg.status <;> simp_all
      have h2 : RegsMono c s.regs
          (updateReg s.regs regId (fun x => { x with
            entry_fee := some fee, status := Status.payment_pending })) := by
        refine regsMono_update c _ regId _ (fun _ => rfl) ?_
        intro x hx hxid
        have hxreg : x = reg :=
          unique_of_pairwise hpw x hx reg hregmem (by rw [hxid, hregid2])
        subst hxreg
        rcases hstat with h | h <;> simp [h, statusRank]
      exact regsMono_trans h2 (regsMono_send_payment c cfg _ regId reg.message_id dmOk)

lemma regsMono_register (s : BotState) (now : Nat) (lobbyKey : String)
    (messageId leaderId : Nat) (displayName : String) (playerIds : List Nat)
    (inGuild dmOk : Bool) :
    RegsMono s.counter s.regs
      (register_submission s now lobbyKey messageId leaderId displayName playerIds inGuild dmOk).regs := by
  unfold register_submission
  by_cases h1 : (s.blacklist.any fun p => p.1 == leaderId) = true
  · rw [if_pos h1]
    exact regsMono_refl _ s.regs
  · rw [if_neg h1]
    by_cases h2 : (playerIds.length != 4) = true
    · rw [if_pos h2]
      exact regsMono_refl _ s.regs
    · rw [if_neg h2]
      by_cases h3 : is_duplicate_registration now lobbyKey ("Team-" ++ displayName)
          playerIds s.regs = true
      · rw [if_pos h3]
        exact regsMono_refl _ s.regs
      · rw [if_neg h3]
        have hins : ∀ reg : Registration, reg.reg_id = s.counter + 1 →
            RegsMono s.counter s.regs (insertReg s.regs reg) := by
          intro reg hid
          exact regsMono_append_fresh _ _ _ _ (regsMono_filter _ s.regs _)
            (by rw [hid]; exact Nat.lt_succ_self _)
        split
        · exact regsMono_trans (hins _ rfl) (regsMono_filter _ _ _)
        · split
          · exact regsMono_trans (hins _ rfl) (regsMono_filter _ _ _)
          · exact hins _ rfl

lemma regsMono_expire (c : Nat) (s : BotState) (regId : Nat) :
    RegsMono c s.regs (expire_pending_fire s regId).regs := by
  unfold expire_pending_fire
  cases hget : getReg s regId with
  | none => exact regsMono_refl c s.regs
  | some reg =>
    simp only
    split
    · exact regsMono_filter c s.regs _
    · exact regsMono_refl c s.regs

lemma regsMono_auto_cancel (c : Nat) (cfg : Config) (s : BotState) (regId : Nat) :
    RegsMono c s.regs (auto_cancel_payment_timeout_fire cfg s regId).regs := by
  unfold auto_cancel_payment_timeout_fire
  cases hget : getReg s regId with
  | none => exact regsMono_refl c s.regs
  | some reg =>
    simp only
    split
    · split
      · exact regsMono_filter c s.regs _
      · exact regsMono_filter c s.regs _
    · exact regsMono_refl c s.regs

lemma regsMono_approve (c : Nat) (s : BotState) (verMsgId : Nat) :
    RegsMono c s.regs (staff_approve s verMsgId).regs := by
  unfold staff_approve
  cases hver : dictGet s.ver_requests verMsgId with
  | none => exact regsMono_refl c s.regs
  | some regId =>
    simp only
    cases hget : getReg s regId with
    | none => exact regsMono_refl c s.regs
    | some reg => exact regsMono_confirm c s regId

lemma regsMono_reject (c : Nat) (s : BotState) (verMsgId : Nat) :
    RegsMono c s.regs (staff_reject s verMsgId).regs := by
  unfold staff_reject
  cases hver : dictGet s.ver_requests verMsgId with
  | none => exact regsMono_refl c s.regs
  | some regId =>
    simp only
    cases hget : getReg s regId with
    | none => exact regsMono_refl c s.regs
    | some reg => exact regsMono_filter c s.regs _

lemma regsMono_markpaid (c : Nat) (s : BotState) (teamName : String) :
    RegsMono c s.regs (markpaid_cmd s teamName).regs := by
  unfold markpaid_cmd
  cases hfind : s.regs.find? (fun r => strLower r.team_name == strLower teamName) with
  | none => exact regsMono_refl c s.regs
  | some reg =>
    simp only
    split
    · exact regsMono_refl c s.regs
    · exact regsMono_confirm c s reg.reg_id

lemma regsMono_markpaid_dashboard (c : Nat) (s : BotState) (regId : Nat) :
    RegsMono c s.regs (markpaid_by_reg_id s regId).regs := by
  unfold markpaid_by_reg_id
  cases hget : getReg s regId with
  | none => exact regsMono_refl c s.regs
  | some reg => exact regsMono_confirm c s regId

lemma regsMono_cancel_slot (c : Nat) (s : BotState) (teamName : String) :
    RegsMono c s.regs (cancel_slot s teamName).regs := by
  unfold cancel_slot
  cases hfind : s.regs.find? (fun r => strLower r.team_name == strLower teamName) with
  | none => exact regsMono_refl c s.regs
  | some reg => exact regsMono_filter c s.regs _

/-- One step of any modelled operation only evolves registrations forward. -/
lemma step_regsMono (cfg : Config) (s : BotState) (op : Op)
    (hpw : s.regs.Pairwise (fun a b => a.reg_id ≠ b.reg_id)) :
    RegsMono s.counter s.regs (step cfg s op).regs := by
  cases op with
  | register now lobbyKey messageId leaderId displayName playerIds inGuild dmOk =>
    exact regsMono_register s now lobbyKey messageId leaderId displayName playerIds inGuild dmOk
  | matchTypeChoice regId lobbyKey mtKey dmOk =>
    exact regsMono_handle_choice _ cfg s regId lobbyKey mtKey dmOk hpw
  | feeChoice regId fee dmOk => exact regsMono_fee_button _ cfg s regId fee dmOk hpw
  | expireFire regId => exact regsMono_expire _ s regId
  | paymentTimeoutFire regId => exact regsMono_auto_cancel _ cfg s regId
  | approve verMsgId => exact regsMono_approve _ s verMsgId
  | reject verMsgId => exact regsMono_reject _ s verMsgId
  | markpaid teamName => exact regsMono_markpaid _ s teamName
  | markpaidDashboard regId => exact regsMono_markpaid_dashboard _ s regId
  | cancelSlot teamName => exact regsMono_cancel_slot _ s teamName

/-- C3 as stated fails on the code: the staff `$markpaid` command checks only
for an already-`confirmed` registration, so invoked on a registration still
in `pending` (here one sitting at the fee sub-choice) it moves it directly
from `pending` to `confirmed`, never passing through `payment_pending`. -/
theorem C3_markpaid_jumps_pending_to_confirmed :
    (getReg pendingChosenState 1).map (·.status) = some .pending ∧
    (getReg (markpaid_cmd pendingChosenState "TEAM-A") 1).map (·.status) =
      some .confirmed := by
  refine ⟨by decide, by decide⟩

/-- C3 amended: in any well-formed store (pairwise-distinct ids, no id above
the counter), every modelled operation moves a surviving registration's
status only forward along pending → payment_pending → confirmed — in
particular no transition re-enters `pending` — but `confirmed` is NOT
reachable only from `payment_pending`: the staff and dashboard markpaid
entry points may take a `pending` registration directly to `confirmed`. -/
theorem C3_status_moves_forward (cfg : Config) (op : Op) (s : BotState)
    (hWF : WF s) (id : Nat) (r r' : Registration)
    (h : getReg s id = some r) (h' : getReg (step cfg s op) id = some r') :
    statusRank r.status ≤ statusRank r'.status := by
  have hmem : r ∈ s.regs := List.mem_of_find?_eq_some h
  have hid : r.reg_id = id := by
    simpa using @List.find?_some Registration (fun x => x.reg_id == id) r s.regs h
  have hmem' : r' ∈ (step cfg s op).regs := List.mem_of_find?_eq_some h'
  have hid' : r'.reg_id = id := by
    simpa using
      @List.find?_some Registration (fun x => x.reg_id == id) r' (step cfg s op).regs h'
  rcases step_regsMono cfg s op hWF.1 r' hmem' with ⟨r0, hr0, hid0, hrank⟩ | hfresh
  · have : r0 = r :=
      unique_of_pairwise hWF.1 r0 hr0 r hmem (by rw [hid0, hid', hid])
    exact this ▸ hrank
  · exfalso
    have hle : r.reg_id ≤ s.counter := hWF.2 r hmem
    rw [hid] at hle
    rw [hid'] at hfresh
    omega

/-- Witness for C3 (amended): the dashboard markpaid step on a well-formed
one-registration store takes `payment_pending` to `confirmed`, a forward
move. -/
theorem C3_status_moves_forward_witness :
    statusRank payPendingReg.status ≤
      statusRank ({ payPendingReg with status := .confirmed } : Registration).status :=
  C3_status_moves_forward {} (.markpaidDashboard 1) payPendingState
    ⟨by simp [payPendingState], by
      intro r hr
      simp only [payPendingState, List.mem_singleton] at hr
      rw [hr]
      decide⟩
    1 payPendingReg { payPendingReg with status := .confirmed } (by decide) (by decide)
